import Mathlib

/-!
Verification of the CryptDiary cryptographic core (src/crypto_manager.py,
src/key_manager.py) against its natural-language specification.

The Python code composes primitives of the external `cryptography` library
(AES-CBC, RSA-OAEP, RSA-PSS, PEM and base64 codecs, PBKDF2).  Those external
primitives are modelled abstractly, at exactly the granularity at which the
repository calls them, as the fields of the `ExtLib` structure; the repository's
own logic (padding, envelope assembly, signing payload construction, revocation
ledger, keystore loading, export/import) is translated concretely, statement by
statement, from the source.  Raised Python exceptions are modelled by the
`Except PyError` monad; `try/except` blocks become matches on that monad.
-/

namespace CryptDiary

/-- Byte strings (Python `bytes`) are lists of naturals. -/
abbrev Bytes := List Nat

/-- A raised Python exception: its message (`str(e)`) and whether it is the
`cryptography.exceptions.InvalidSignature` exception class, which
`CryptoManager.verify_signature` catches separately from `Exception`. -/
structure PyError where
  msg : String
  isInvalidSig : Bool
deriving Repr, DecidableEq

/-- Padding applied by `CryptoManager.encrypt_entry` (crypto_manager.py lines
48-49): `padding_length = 16 - (len(plaintext_bytes) % 16)` and then
`padding_length` bytes each of value `padding_length` are appended.  Note that
an input whose length is a multiple of 16 (including the empty input) receives
a full block of 16 padding bytes. -/
def padPlaintext (pt : Bytes) : Bytes :=
  let padLen := 16 - pt.length % 16
  pt ++ List.replicate padLen padLen

/-- Padding removal in `CryptoManager.decrypt_entry` (crypto_manager.py lines
104-105): `padding_length = padded_plaintext[-1]` followed by
`padded_plaintext[:-padding_length]`.  On an empty input, `[-1]` raises
`IndexError` (modelled by `none`).  Python's `x[:-0]` is the empty sequence,
hence the `padLen = 0` case. -/
def stripPadding (padded : Bytes) : Option Bytes :=
  match padded.getLast? with
  | none => none
  | some padLen =>
      some (if padLen = 0 then [] else padded.take (padded.length - padLen))

/-- The padding scheme of `encrypt_entry` is exactly undone by the padding
removal of `decrypt_entry`, for every byte string, including the empty string
and strings whose length is a multiple of the 16-byte block size. -/
theorem stripPadding_padPlaintext (pt : Bytes) :
    stripPadding (padPlaintext pt) = some pt := by
  have hlt : pt.length % 16 < 16 := Nat.mod_lt _ (by omega)
  obtain ⟨m, hm⟩ : ∃ m, 16 - pt.length % 16 = m + 1 :=
    ⟨16 - pt.length % 16 - 1, by omega⟩
  unfold padPlaintext stripPadding
  simp only [hm]
  rw [List.replicate_succ' (n := m), ← List.append_assoc, List.getLast?_concat]
  have hne : m + 1 ≠ 0 := by omega
  simp only [hne, if_false]
  have hlen : ((pt ++ List.replicate m (m + 1)) ++ [m + 1]).length - (m + 1)
      = pt.length := by
    simp [List.length_append, List.length_replicate]
  rw [hlen, List.append_assoc]
  rw [List.take_left]

/-- Parsed shape of the keystore file on disk (key_manager.py lines 147-151):
a JSON object with base64 fields `salt`, `iv`, `data`. -/
structure KeystoreFile where
  salt : String
  iv : String
  data : String
deriving Repr, DecidableEq

/-- Parsed shape of the decrypted keystore payload (key_manager.py lines
117-122): base64-PEM `private_key` and `public_key`, optional `certificate`. -/
structure KeystoreData where
  private_key : String
  public_key : String
  certificate : Option String
deriving Repr, DecidableEq

/-- The external primitives the repository calls: the pyca/cryptography
library, base64, JSON (de)serialisation of the fixed shapes used, and UTF-8.
Each field models one library entry point at exactly the granularity the
source calls it; fallible calls return `Except PyError`.  `PrivK`, `PubK`,
`Cert` are the library's opaque key/certificate object types. -/
structure ExtLib (PrivK PubK Cert : Type) where
  utf8Encode : String → Bytes
  utf8Decode : Bytes → Except PyError String
  b64encode : Bytes → String
  b64decode : String → Except PyError Bytes
  aesCbcEncrypt : Bytes → Bytes → Bytes → Except PyError Bytes
  aesCbcDecrypt : Bytes → Bytes → Bytes → Except PyError Bytes
  rsaOaepEncrypt : PubK → Bytes → Except PyError Bytes
  rsaOaepDecrypt : PrivK → Bytes → Except PyError Bytes
  pssSign : PrivK → Bytes → Bytes
  pssVerify : PubK → Bytes → Bytes → Except PyError Unit
  rsaGenKey : Nat → Except PyError PrivK
  rsaPublicKey : PrivK → PubK
  certSerial : Cert → Nat
  certPublicKey : Cert → PubK
  certSubjectCN : Cert → Except PyError String
  certToPem : Cert → String
  pemToCert : Bytes → Except PyError Cert
  jsonLoadKeystore : String → Except PyError KeystoreFile
  parseKeystoreData : Bytes → Except PyError KeystoreData
  deriveKey : String → Bytes → Bytes
  loadPemPrivateKey : Bytes → Except PyError PrivK
  loadPemPublicKey : Bytes → Except PyError PubK

/-- The mutable key state of a `KeyManager` instance (key_manager.py lines
35-37): `private_key`, `public_key`, `certificate`, each initially `None`. -/
structure KMState (PrivK PubK Cert : Type) where
  private_key : Option PrivK
  public_key : Option PubK
  certificate : Option Cert
deriving DecidableEq

/-- One entry of the shared revocation ledger (key_manager.py lines 377-381). -/
structure RevEntry where
  serial : String
  revoked_by : String
  timestamp : String
deriving Repr, DecidableEq

/-- The shared revocation ledger: the `revoked` list of the global
`revoked_certificates.json` file, in insertion order. -/
abbrev Ledger := List RevEntry

/-- The encrypted-entry envelope returned by `CryptoManager.encrypt_entry`
(crypto_manager.py lines 64-69), extended by `encrypt_and_sign` with the three
optional signature fields (lines 237-239). -/
structure Envelope where
  encrypted_key : String
  iv : String
  ciphertext : String
  timestamp : String
  signature : Option String := none
  signed_timestamp : Option String := none
  cert_serial : Option String := none
deriving Repr, DecidableEq

/-- The result of `CryptoManager.sign_entry` (crypto_manager.py lines 151-155). -/
structure SigInfo where
  signature : String
  signed_timestamp : String
  cert_serial : Option String
deriving Repr, DecidableEq

/-- The entry metadata used by export (diary_storage metadata fields `title`
and `created`). -/
structure Metadata where
  title : String
  created : String
deriving Repr, DecidableEq

/-- The export package built by `CryptoManager.export_entry`
(crypto_manager.py lines 275-281). -/
structure Package where
  entry_id : String
  title : String
  created : String
  encrypted_data : Envelope
  signer_certificate : String
deriving Repr, DecidableEq

/-- The metadata dictionary built by `CryptoManager.import_entry`
(crypto_manager.py lines 311-315). -/
structure ImportMeta where
  title : String
  created : String
  imported_from : String
deriving Repr, DecidableEq

section Operations

variable {PrivK PubK Cert : Type}

/-- KeyManager.is_revoked (key_manager.py lines 386-400): linear scan of the
global ledger for the serial. -/
def is_revoked (ledger : Ledger) (serial : String) : Bool :=
  ledger.any (fun e => e.serial = serial)

/-- KeyManager.revoke_certificate (key_manager.py lines 361-384): if the
serial is already present return `False` without touching the ledger,
otherwise append an entry (with `revoked_by` defaulting to `"unknown"` for a
falsy username, i.e. `None` or the empty string) and return `True`.  Returns
the new ledger contents together with the reported boolean. -/
def revoke_certificate (ledger : Ledger) (serial : String)
    (username : Option String) (now : String) : Ledger × Bool :=
  if ledger.any (fun e => e.serial = serial) then
    (ledger, false)
  else
    let by' := match username with
      | none => "unknown"
      | some u => if u = "" then "unknown" else u
    (ledger ++ [⟨serial, by', now⟩], true)

/-- KeyManager.get_certificate_serial (key_manager.py lines 234-238):
`str(self.certificate.serial_number)` when a certificate is held, else `None`. -/
def get_certificate_serial (L : ExtLib PrivK PubK Cert)
    (km : KMState PrivK PubK Cert) : Option String :=
  km.certificate.map (fun c => toString (L.certSerial c))

/-- The canonical signed structure serialisation shared by
`CryptoManager._prepare_signed_data` (line 123) and the reconstruction in
`verify_signature` (lines 185-189): `json.dumps` with `sort_keys=True` of a
dict with `data` (a base64 string) before `timestamp` (an ISO string); neither
value contains characters that JSON escapes. -/
def dumpsSigned (dataB64 timestamp : String) : String :=
  "\x7b\"data\": \"" ++ dataB64 ++ "\", \"timestamp\": \"" ++ timestamp ++ "\"\x7d"

/-- The AttributeError raised when a method is called on a `None` key. -/
def noneAttrError : PyError :=
  ⟨"'NoneType' object has no attribute", false⟩

/-- CryptoManager.encrypt_entry (crypto_manager.py lines 26-69).  The fresh
`os.urandom` values and `datetime.utcnow` timestamp are passed explicitly. -/
def encrypt_entry (L : ExtLib PrivK PubK Cert) (km : KMState PrivK PubK Cert)
    (aesKey iv : Bytes) (now : String) (plaintext : String) :
    Except PyError Envelope := do
  let padded := padPlaintext (L.utf8Encode plaintext)
  let ciphertext ← L.aesCbcEncrypt aesKey iv padded
  let pub ← match km.public_key with
    | some pk => pure pk
    | none => throw noneAttrError
  let encrypted_aes_key ← L.rsaOaepEncrypt pub aesKey
  pure { encrypted_key := L.b64encode encrypted_aes_key
         iv := L.b64encode iv
         ciphertext := L.b64encode ciphertext
         timestamp := now }

/-- The try-block body of `CryptoManager.decrypt_entry` (crypto_manager.py
lines 81-107): base64-decode the three fields, unwrap the AES key with
RSA-OAEP, AES-CBC-decrypt, strip padding (unvalidated last byte), decode
UTF-8. -/
def decrypt_entry_body (L : ExtLib PrivK PubK Cert)
    (km : KMState PrivK PubK Cert) (enc : Envelope) : Except PyError String := do
  let encrypted_aes_key ← L.b64decode enc.encrypted_key
  let iv ← L.b64decode enc.iv
  let ciphertext ← L.b64decode enc.ciphertext
  let priv ← match km.private_key with
    | some k => pure k
    | none => throw noneAttrError
  let aesKey ← L.rsaOaepDecrypt priv encrypted_aes_key
  let padded ← L.aesCbcDecrypt aesKey iv ciphertext
  let plaintext ← match stripPadding padded with
    | none => throw ⟨"index out of range", false⟩
    | some pt => pure pt
  L.utf8Decode plaintext

/-- CryptoManager.decrypt_entry (crypto_manager.py lines 71-110): on any
exception `e` in the body it raises
`Exception(f"Decryption failed: \x7bstr(e)\x7d")`. -/
def decrypt_entry (L : ExtLib PrivK PubK Cert) (km : KMState PrivK PubK Cert)
    (enc : Envelope) : Except PyError String :=
  match decrypt_entry_body L km enc with
  | .ok pt => .ok pt
  | .error e => .error ⟨"Decryption failed: " ++ e.msg, false⟩

/-- CryptoManager.sign_entry (crypto_manager.py lines 125-155): build the
canonical signed structure over the (string) data with the current timestamp,
sign it with RSA-PSS, and return the base64 signature, the signed timestamp
and the signer's certificate serial. -/
def sign_entry (L : ExtLib PrivK PubK Cert) (km : KMState PrivK PubK Cert)
    (now : String) (data : String) : Except PyError SigInfo := do
  let dataB64 := L.b64encode (L.utf8Encode data)
  let prepared := L.utf8Encode (dumpsSigned dataB64 now)
  let priv ← match km.private_key with
    | some k => pure k
    | none => throw noneAttrError
  let signature := L.pssSign priv prepared
  pure { signature := L.b64encode signature
         signed_timestamp := now
         cert_serial := get_certificate_serial L km }

/-- The try-block body of `CryptoManager.verify_signature` (crypto_manager.py
lines 174-220): revocation lookup first (skipped for a falsy `cert_serial`,
i.e. `None` or the empty string), reconstruction of the canonical signed
structure, base64 decode of the signature, public-key selection (certificate
first, then explicit public key, then the key manager's own key), PSS
verification, and the advisory freshness check (which only prints). -/
def verify_signature_body (L : ExtLib PrivK PubK Cert) (ledger : Ledger)
    (km : KMState PrivK PubK Cert) (data : String) (signature_b64 : String)
    (timestamp : String) (cert_serial : Option String)
    (public_key : Option PubK) (certificate : Option Cert) :
    Except PyError (Bool × Bool) := do
  let isRev := match cert_serial with
    | some s => if s = "" then false else is_revoked ledger s
    | none => false
  let dataB64 := L.b64encode (L.utf8Encode data)
  let prepared := L.utf8Encode (dumpsSigned dataB64 timestamp)
  let signature ← L.b64decode signature_b64
  let pub ← match certificate with
    | some c => pure (L.certPublicKey c)
    | none => match public_key with
      | some pk => pure pk
      | none => match km.public_key with
        | some pk => pure pk
        | none => throw noneAttrError
  let _ ← L.pssVerify pub signature prepared
  pure (true, isRev)

/-- CryptoManager.verify_signature (crypto_manager.py lines 157-226): the
try-block body with `except InvalidSignature` and `except Exception` both
converted to the result pair `(False, False)`. -/
def verify_signature (L : ExtLib PrivK PubK Cert) (ledger : Ledger)
    (km : KMState PrivK PubK Cert) (data : String) (signature_b64 : String)
    (timestamp : String) (cert_serial : Option String)
    (public_key : Option PubK) (certificate : Option Cert) : Bool × Bool :=
  match verify_signature_body L ledger km data signature_b64 timestamp
      cert_serial public_key certificate with
  | .ok r => r
  | .error _ => (false, false)

/-- CryptoManager.encrypt_and_sign (crypto_manager.py lines 228-240):
encrypt, sign the base64 ciphertext string, and attach the signature fields
to the envelope. -/
def encrypt_and_sign (L : ExtLib PrivK PubK Cert) (km : KMState PrivK PubK Cert)
    (aesKey iv : Bytes) (encNow signNow : String) (plaintext : String) :
    Except PyError Envelope := do
  let encrypted ← encrypt_entry L km aesKey iv encNow plaintext
  let si ← sign_entry L km signNow encrypted.ciphertext
  pure { encrypted with
           signature := some si.signature
           signed_timestamp := some si.signed_timestamp
           cert_serial := si.cert_serial }

/-- CryptoManager.verify_and_decrypt (crypto_manager.py lines 242-264):
verify only when both `signature` and `signed_timestamp` are present in the
envelope (with `is_valid, is_revoked` otherwise keeping their `False`
initial values), then decrypt. -/
def verify_and_decrypt (L : ExtLib PrivK PubK Cert) (ledger : Ledger)
    (km : KMState PrivK PubK Cert) (enc : Envelope) :
    Except PyError (String × Bool × Bool) :=
  let vr := match enc.signature, enc.signed_timestamp with
    | some sig, some ts =>
        verify_signature L ledger km enc.ciphertext sig ts enc.cert_serial
          none none
    | _, _ => (false, false)
  (decrypt_entry L km enc).map (fun pt => (pt, vr.1, vr.2))

/-- CryptoManager.export_entry (crypto_manager.py lines 267-282):
`export_certificate_pem` returns `None` without a certificate
(key_manager.py lines 276-279), and `export_entry` raises
`ValueError("No certificate available to export.")` for a falsy PEM
(`None` or the empty string); otherwise it bundles id, title, created,
envelope and the certificate PEM. -/
def export_entry (L : ExtLib PrivK PubK Cert) (km : KMState PrivK PubK Cert)
    (entry_id : String) (metadata : Metadata) (encrypted_data : Envelope) :
    Except PyError Package :=
  match km.certificate with
  | none => .error ⟨"No certificate available to export.", false⟩
  | some cert =>
      let cert_pem := L.certToPem cert
      if cert_pem = "" then
        .error ⟨"No certificate available to export.", false⟩
      else
        .ok { entry_id := entry_id
              title := metadata.title
              created := metadata.created
              encrypted_data := encrypted_data
              signer_certificate := cert_pem }

/-- CryptoManager.import_entry (crypto_manager.py lines 284-316): parse the
embedded certificate PEM, check revocation of its serial against the
importer's ledger, verify the embedded signature using the embedded
certificate (passed as the `certificate` argument of `verify_signature`, so
its public key is used, never the importer's), and build the result tuple.
Missing `signature` or `signed_timestamp` fields raise `KeyError`. -/
def import_entry (L : ExtLib PrivK PubK Cert) (ledger : Ledger)
    (km : KMState PrivK PubK Cert) (package : Package) :
    Except PyError (ImportMeta × Envelope × Bool × Bool × Cert) := do
  let cert ← L.pemToCert (L.utf8Encode package.signer_certificate)
  let cert_serial := toString (L.certSerial cert)
  let isRev := is_revoked ledger cert_serial
  let enc := package.encrypted_data
  let sig ← match enc.signature with
    | some s => pure s
    | none => throw ⟨"KeyError: signature", false⟩
  let ts ← match enc.signed_timestamp with
    | some t => pure t
    | none => throw ⟨"KeyError: signed_timestamp", false⟩
  let vr := verify_signature L ledger km enc.ciphertext sig ts
    (some cert_serial) none (some cert)
  let cn ← L.certSubjectCN cert
  pure (⟨package.title, package.created, cn⟩, enc, vr.1, isRev, cert)

/-- KeyManager.generate_key_pair (key_manager.py lines 39-46): calls
`rsa.generate_private_key(public_exponent=65537, key_size=key_size)` and
stores the private key and its public half.  The source contains no minimum
key-size validation of its own; the only size check is the one inside the
external library call. -/
def generate_key_pair (L : ExtLib PrivK PubK Cert)
    (st : KMState PrivK PubK Cert) (key_size : Nat) :
    Except PyError (KMState PrivK PubK Cert) := do
  let priv ← L.rsaGenKey key_size
  pure { st with private_key := some priv
                 public_key := some (L.rsaPublicKey priv) }

/-- The non-mutating front part of `KeyManager.load_keystore`
(key_manager.py lines 175-195): JSON-parse the file, base64-decode salt, iv
and data, derive the key with PBKDF2, AES-CBC-decrypt, strip the
(unvalidated) padding, and parse the decrypted JSON payload.  No `self`
attribute is assigned in this part. -/
def load_keystore_parse (L : ExtLib PrivK PubK Cert) (password : String)
    (raw : String) : Except PyError KeystoreData := do
  let ks ← L.jsonLoadKeystore raw
  let salt ← L.b64decode ks.salt
  let iv ← L.b64decode ks.iv
  let encrypted_data ← L.b64decode ks.data
  let key := L.deriveKey password salt
  let padded ← L.aesCbcDecrypt key iv encrypted_data
  let decrypted ← match stripPadding padded with
    | none => throw ⟨"index out of range", false⟩
    | some d => pure d
  L.parseKeystoreData decrypted

/-- KeyManager.load_keystore (key_manager.py lines 161-223).  A missing file
returns `False` untouched.  The try block assigns `self.private_key`
(line 199), then `self.public_key` (line 207), then `self.certificate`
(line 215, or `None` at line 217 when the payload has no certificate);
`except Exception` returns `False`, keeping whatever assignments had already
happened.  Returns the reported boolean together with the key state after
the call. -/
def load_keystore (L : ExtLib PrivK PubK Cert) (password : String)
    (file : Option String) (st : KMState PrivK PubK Cert) :
    Bool × KMState PrivK PubK Cert :=
  match file with
  | none => (false, st)
  | some raw =>
    match load_keystore_parse L password raw with
    | .error _ => (false, st)
    | .ok kd =>
      match (do
          let pem ← L.b64decode kd.private_key
          L.loadPemPrivateKey pem : Except PyError PrivK) with
      | .error _ => (false, st)
      | .ok priv =>
        let st1 := { st with private_key := some priv }
        match (do
            let pem ← L.b64decode kd.public_key
            L.loadPemPublicKey pem : Except PyError PubK) with
        | .error _ => (false, st1)
        | .ok pub =>
          let st2 := { st1 with public_key := some pub }
          match kd.certificate with
          | none => (true, { st2 with certificate := none })
          | some certB64 =>
            match (do
                let pem ← L.b64decode certB64
                L.pemToCert pem : Except PyError Cert) with
            | .error _ => (false, st2)
            | .ok cert => (true, { st2 with certificate := some cert })

end Operations

/-! Helper facts about decimal representations of naturals: the serial string
`str(cert.serial_number)` is never empty, so it is never falsy in Python. -/

theorem toDigitsCore_append (b f n : Nat) (ds : List Char) :
    ∃ l, Nat.toDigitsCore b f n ds = l ++ ds := by
  induction f generalizing n ds with
  | zero => exact ⟨[], rfl⟩
  | succ f ih =>
    unfold Nat.toDigitsCore
    by_cases h : n / b = 0
    · exact ⟨[Nat.digitChar (n % b)], by simp [h]⟩
    · obtain ⟨l, hl⟩ := ih (n / b) (Nat.digitChar (n % b) :: ds)
      exact ⟨l ++ [Nat.digitChar (n % b)], by simp [h, hl]⟩

theorem toDigitsCore_ne_nil (b f n : Nat) (ds : List Char) :
    Nat.toDigitsCore b (f + 1) n ds ≠ [] := by
  unfold Nat.toDigitsCore
  by_cases h : n / b = 0
  · simp [h]
  · simp only [h, if_false]
    obtain ⟨l, hl⟩ := toDigitsCore_append b f (n / b) (Nat.digitChar (n % b) :: ds)
    rw [hl]
    simp

theorem toString_nat_ne_empty (n : Nat) : toString n ≠ "" := by
  show Nat.repr n ≠ ""
  unfold Nat.repr Nat.toDigits
  intro hcon
  exact toDigitsCore_ne_nil 10 n n [] (congrArg String.data hcon)

/-! An injectively decodable byte-string-to-text codec, used to instantiate
the abstract base64 primitive pair in concrete witnesses: each byte n becomes
n ones followed by a zero. -/

def natToUnary (n : Nat) : List Char :=
  List.replicate n '1' ++ ['0']

def unaryEncode (b : Bytes) : String :=
  ⟨(b.map natToUnary).flatten⟩

def unaryParseAux : List Char → Nat → List Nat → Option (List Nat)
  | [], n, acc => if n = 0 then some acc.reverse else none
  | c :: cs, n, acc =>
    if c = '1' then unaryParseAux cs (n + 1) acc
    else if c = '0' then unaryParseAux cs 0 (n :: acc)
    else none

def unaryDecode (s : String) : Except PyError Bytes :=
  match unaryParseAux s.data 0 [] with
  | some b => .ok b
  | none => .error ⟨"binascii.Error: Invalid base64-encoded string", false⟩

theorem unaryParseAux_replicate (n : Nat) (cs : List Char) (c0 : Nat)
    (acc : List Nat) :
    unaryParseAux (List.replicate n '1' ++ '0' :: cs) c0 acc =
      unaryParseAux cs 0 ((c0 + n) :: acc) := by
  induction n generalizing c0 with
  | zero =>
    show unaryParseAux ('0' :: cs) c0 acc = _
    rw [unaryParseAux]
    rw [if_neg (by decide), if_pos rfl, Nat.add_zero]
  | succ k ih =>
    rw [List.replicate_succ]
    show unaryParseAux ('1' :: (List.replicate k '1' ++ '0' :: cs)) c0 acc = _
    rw [unaryParseAux, if_pos rfl, ih (c0 + 1)]
    congr 2
    omega

theorem unaryParseAux_flatten (b : List Nat) (acc : List Nat) :
    unaryParseAux ((b.map natToUnary).flatten) 0 acc =
      some (acc.reverse ++ b) := by
  induction b generalizing acc with
  | nil => simp [unaryParseAux]
  | cons x xs ih =>
    simp only [List.map_cons, List.flatten_cons, natToUnary, List.append_assoc,
      List.singleton_append]
    rw [unaryParseAux_replicate, ih, Nat.zero_add]
    simp

theorem unaryDecode_encode (b : Bytes) : unaryDecode (unaryEncode b) = .ok b := by
  unfold unaryDecode unaryEncode
  rw [show (String.mk ((b.map natToUnary).flatten)).data =
    (b.map natToUnary).flatten from rfl]
  rw [unaryParseAux_flatten]
  rfl

/-! A string-to-bytes codec (instantiating the abstract UTF-8 pair). -/

def strToBytes (s : String) : Bytes :=
  s.data.map Char.toNat

def bytesToStr (b : Bytes) : Except PyError String :=
  .ok ⟨b.map Char.ofNat⟩

theorem bytesToStr_strToBytes (s : String) : bytesToStr (strToBytes s) = .ok s := by
  unfold bytesToStr strToBytes
  rw [List.map_map]
  have h : s.data.map (Char.ofNat ∘ Char.toNat) = s.data := by
    induction s.data with
    | nil => rfl
    | cons c cs ih => simp [ih, Char.ofNat_toNat]
  rw [h]

/-! A concrete instantiation of the external library, used by the witness and
counterexample theorems: identity block cipher and key wrap, signatures that
carry their message, invertible codecs. -/

structure TestCert where
  serial : Nat
  pub : Nat
  cn : String
deriving Repr, DecidableEq

def testCert : TestCert := ⟨42, 1, "alice"⟩

def testLib : ExtLib Nat Nat TestCert where
  utf8Encode := strToBytes
  utf8Decode := bytesToStr
  b64encode := unaryEncode
  b64decode := unaryDecode
  aesCbcEncrypt := fun _ _ d => .ok d
  aesCbcDecrypt := fun _ _ d => .ok d
  rsaOaepEncrypt := fun _ d => .ok d
  rsaOaepDecrypt := fun _ d => .ok d
  pssSign := fun _ m => m
  pssVerify := fun _ sig m =>
    if sig = m then .ok () else .error ⟨"InvalidSignature", true⟩
  rsaGenKey := fun n =>
    if n < 512 then .error ⟨"key_size must be at least 512-bits.", false⟩
    else .ok n
  rsaPublicKey := fun p => p
  certSerial := fun c => c.serial
  certPublicKey := fun c => c.pub
  certSubjectCN := fun c => .ok c.cn
  certToPem := fun c => "CERT" ++ toString c.serial
  pemToCert := fun b =>
    if b = strToBytes "CERT42" then .ok testCert
    else .error ⟨"Unable to load PEM file.", false⟩
  jsonLoadKeystore := fun _ => .ok ⟨"", "", ""⟩
  parseKeystoreData := fun _ => .ok ⟨"0", "0", none⟩
  deriveKey := fun _ _ => []
  loadPemPrivateKey := fun _ => .ok 1
  loadPemPublicKey := fun _ => .ok 1

def testKM : KMState Nat Nat TestCert := ⟨some 1, some 1, some testCert⟩

theorem testLib_b64_inv (x : Bytes) :
    testLib.b64decode (testLib.b64encode x) = .ok x :=
  unaryDecode_encode x

theorem testLib_utf8_inv (s : String) :
    testLib.utf8Decode (testLib.utf8Encode s) = .ok s :=
  bytesToStr_strToBytes s

theorem testLib_pss (pub priv : Nat) (m : Bytes) :
    testLib.pssVerify pub (testLib.pssSign priv m) m = .ok () := by
  simp [testLib]

/-- A sample envelope whose three base64 fields decode under the unary codec. -/
def testEnv : Envelope :=
  { encrypted_key := "0", iv := "0", ciphertext := "0", timestamp := "T" }

/-- Revoking a serial makes a subsequent `is_revoked` lookup of that serial
return true, whether or not it was already present. -/
theorem is_revoked_revoke_self (ledger : Ledger) (serial : String)
    (u : Option String) (t : String) :
    is_revoked (revoke_certificate ledger serial u t).1 serial = true := by
  unfold is_revoked revoke_certificate
  by_cases h : ledger.any (fun e => e.serial = serial)
  · simp only [h, if_true]
  · simp only [Bool.not_eq_true] at h
    simp [h, List.any_append]

/-- C8: revocation is idempotent and permanent.  Starting from a ledger not
containing `serial`, the first `revoke_certificate` reports true and appends
one entry, the second reports false (already revoked) and leaves the ledger
unchanged, exactly one entry for the serial remains, and every
`revoke_certificate` call extends the ledger (the prior contents stay as a
prefix — entries are never removed). -/
theorem claim8_revocation_idempotent_permanent (ledger : Ledger)
    (serial : String) (u1 u2 : Option String) (t1 t2 : String)
    (h : is_revoked ledger serial = false) :
    (revoke_certificate ledger serial u1 t1).2 = true ∧
    (revoke_certificate (revoke_certificate ledger serial u1 t1).1
      serial u2 t2).2 = false ∧
    (revoke_certificate (revoke_certificate ledger serial u1 t1).1
      serial u2 t2).1 = (revoke_certificate ledger serial u1 t1).1 ∧
    (((revoke_certificate ledger serial u1 t1).1).filter
      (fun e => e.serial = serial)).length = 1 ∧
    (∀ (l : Ledger) (s : String) (u : Option String) (t : String),
      l <+: (revoke_certificate l s u t).1) := by
  unfold is_revoked at h
  have hnone : ∀ e ∈ ledger, ¬(e.serial = serial) := by
    simpa using List.any_eq_false.mp h
  have h1 : (revoke_certificate ledger serial u1 t1).1 =
      ledger ++ [⟨serial,
        (match u1 with
         | none => "unknown"
         | some u => if u = "" then "unknown" else u), t1⟩] := by
    unfold revoke_certificate
    simp [h]
  refine ⟨?_, ?_, ?_, ?_, ?_⟩
  · unfold revoke_certificate
    simp [h]
  · rw [h1]
    unfold revoke_certificate
    simp [List.any_append]
  · rw [h1]
    conv_lhs => unfold revoke_certificate
    simp [List.any_append]
  · rw [h1, List.filter_append]
    rw [List.filter_eq_nil_iff.mpr (by simpa using hnone)]
    simp
  · intro l s u t
    unfold revoke_certificate
    by_cases hc : l.any (fun e => e.serial = s)
    · simp [hc]
    · simp only [Bool.not_eq_true] at hc
      simp [hc]

/-- C8 witness: the theorem applied to the empty ledger and serial "42". -/
theorem claim8_witness :
    is_revoked [] "42" = false ∧
    (revoke_certificate [] "42" (some "alice") "t1").2 = true ∧
    (revoke_certificate (revoke_certificate [] "42" (some "alice") "t1").1
      "42" (some "bob") "t2").2 = false ∧
    (((revoke_certificate [] "42" (some "alice") "t1").1).filter
      (fun e => e.serial = "42")).length = 1 := by
  have hmain := claim8_revocation_idempotent_permanent [] "42"
    (some "alice") (some "bob") "t1" "t2" (by decide)
  exact ⟨by decide, hmain.1, hmain.2.1, hmain.2.2.2.1⟩

/-- C3: verify_signature never propagates an exception — whenever its
try-block body raises any error (the InvalidSignature case as well as every
other exception), the function returns the conservative result pair
(valid := false, revoked := false). -/
theorem claim3_verify_never_raises {PrivK PubK Cert : Type}
    (L : ExtLib PrivK PubK Cert) (ledger : Ledger)
    (km : KMState PrivK PubK Cert) (data signature_b64 timestamp : String)
    (cert_serial : Option String) (public_key : Option PubK)
    (certificate : Option Cert) (e : PyError)
    (h : verify_signature_body L ledger km data signature_b64 timestamp
      cert_serial public_key certificate = .error e) :
    verify_signature L ledger km data signature_b64 timestamp cert_serial
      public_key certificate = (false, false) := by
  unfold verify_signature
  rw [h]

/-- C3 witness: a signature that fails PSS verification under the concrete
library makes the body raise InvalidSignature and the function return
(false, false). -/
theorem claim3_witness :
    verify_signature_body testLib [] testKM "d" (unaryEncode [9]) "T"
      none none none = .error ⟨"InvalidSignature", true⟩ ∧
    verify_signature testLib [] testKM "d" (unaryEncode [9]) "T"
      none none none = (false, false) := by
  constructor
  · rfl
  · exact claim3_verify_never_raises testLib [] testKM "d" (unaryEncode [9])
      "T" none none none ⟨"InvalidSignature", true⟩ (by rfl)

/-- C10: an envelope lacking the signature or the signed_timestamp field is
decrypted without any signature verification, and verify_and_decrypt returns
the plaintext with valid := false and revoked := false instead of raising. -/
theorem claim10_missing_signature_skips_verification {PrivK PubK Cert : Type}
    (L : ExtLib PrivK PubK Cert) (ledger : Ledger)
    (km : KMState PrivK PubK Cert) (enc : Envelope) (pt : String)
    (hmiss : enc.signature = none ∨ enc.signed_timestamp = none)
    (hdec : decrypt_entry L km enc = .ok pt) :
    verify_and_decrypt L ledger km enc = .ok (pt, false, false) := by
  unfold verify_and_decrypt
  rcases hmiss with h | h
  · rw [h, hdec]
    rfl
  · cases hsig : enc.signature with
    | none => rw [hdec]; rfl
    | some s => rw [h, hdec]; rfl

/-- C10 witness: an envelope with no signature fields decrypts under the
concrete library to its plaintext with the (false, false) verdict. -/
theorem claim10_witness :
    decrypt_entry testLib testKM ⟨"10", "0", "110", "T", none, none, none⟩ =
      .ok "" ∧
    verify_and_decrypt testLib [] testKM
      ⟨"10", "0", "110", "T", none, none, none⟩ =
      .ok ("", false, false) := by
  constructor
  · rfl
  · exact claim10_missing_signature_skips_verification testLib [] testKM
      ⟨"10", "0", "110", "T", none, none, none⟩ ""
      (Or.inl rfl) (by rfl)

/-- C5 counterexample: generate_key_pair called with key size 768 — far below
the spec's 2048-bit minimum — succeeds and stores a key pair; no
WeakParameterError (or any other error) is raised.  The source
(key_manager.py lines 39-46) forwards key_size directly to
rsa.generate_private_key, which accepts any size of at least 512 bits. -/
theorem claim5_counterexample :
    generate_key_pair testLib ⟨none, none, none⟩ 768 =
      .ok ⟨some 768, some 768, none⟩ := by
  rfl

/-- C5 amended: generate_key_pair performs no minimum-size validation of its
own — whenever the external RSA library accepts the requested size (it
accepts anything from 512 bits up, in particular sizes below 2048), a key
pair is generated and stored, and no WeakParameterError exists in the code. -/
theorem claim5_no_minimum_check {PrivK PubK Cert : Type}
    (L : ExtLib PrivK PubK Cert) (st : KMState PrivK PubK Cert)
    (key_size : Nat) (priv : PrivK)
    (h : L.rsaGenKey key_size = .ok priv) :
    generate_key_pair L st key_size =
      .ok { st with private_key := some priv
                    public_key := some (L.rsaPublicKey priv) } := by
  unfold generate_key_pair
  rw [h]
  rfl

/-- C5 witness: the amended theorem applied at 1024 bits. -/
theorem claim5_witness :
    generate_key_pair testLib ⟨none, none, none⟩ 1024 =
      .ok ⟨some 1024, some 1024, none⟩ :=
  claim5_no_minimum_check testLib ⟨none, none, none⟩ 1024 1024 rfl

/-- C7: export_entry requires the exporting key manager to hold a
certificate: with none held it raises the error the spec's taxonomy calls
NoCertificateError (in the source a ValueError with message "No certificate
available to export."); with one held, whose PEM serialisation is nonempty
as PEM always is, it returns the package bundling the entry id, title,
created time, the envelope and the certificate PEM. -/
theorem claim7_export_requires_certificate {PrivK PubK Cert : Type}
    (L : ExtLib PrivK PubK Cert) (km : KMState PrivK PubK Cert)
    (entry_id : String) (md : Metadata) (env : Envelope) :
    (km.certificate = none →
      export_entry L km entry_id md env =
        .error ⟨"No certificate available to export.", false⟩) ∧
    (∀ cert, km.certificate = some cert → L.certToPem cert ≠ "" →
      export_entry L km entry_id md env =
        .ok ⟨entry_id, md.title, md.created, env, L.certToPem cert⟩) := by
  constructor
  · intro h
    unfold export_entry
    rw [h]
  · intro cert h hne
    unfold export_entry
    rw [h]
    simp [hne]

/-- C7 witness: both branches at concrete states — a key manager without a
certificate fails with the no-certificate error, one with a certificate
returns the bundled package. -/
theorem claim7_witness :
    export_entry testLib ⟨some 1, some 1, none⟩ "id1" ⟨"t", "c"⟩ testEnv =
      .error ⟨"No certificate available to export.", false⟩ ∧
    export_entry testLib testKM "id1" ⟨"t", "c"⟩ testEnv =
      .ok ⟨"id1", "t", "c", testEnv, testLib.certToPem testCert⟩ := by
  constructor
  · exact (claim7_export_requires_certificate testLib ⟨some 1, some 1, none⟩
      "id1" ⟨"t", "c"⟩ testEnv).1 rfl
  · exact (claim7_export_requires_certificate testLib testKM
      "id1" ⟨"t", "c"⟩ testEnv).2 testCert rfl (by decide)

/-- Variant of the concrete library whose RSA-OAEP unwrap rejects an empty
wrapped key with the message the pyca/cryptography library uses for a
malformed ciphertext length. -/
def libC9 : ExtLib Nat Nat TestCert :=
  { testLib with rsaOaepDecrypt := fun _ c =>
      if c = [] then
        Except.error ⟨"Ciphertext length must be equal to key size.", false⟩
      else
        Except.ok c }

/-- C9 counterexample: two failing envelopes — the first failing at RSA-OAEP
key unwrapping (the library raises ValueError with its own message), the
second failing at padding removal (IndexError "index out of range" on the
empty decrypted block) — produce different user-facing error messages, so the
failing sub-step is distinguishable from the message text. -/
theorem claim9_counterexample :
    decrypt_entry libC9 testKM ⟨"", "0", "0", "T", none, none, none⟩ =
      .error ⟨"Decryption failed: Ciphertext length must be equal to key size.",
        false⟩ ∧
    decrypt_entry libC9 testKM ⟨"10", "0", "", "T", none, none, none⟩ =
      .error ⟨"Decryption failed: index out of range", false⟩ ∧
    ("Decryption failed: Ciphertext length must be equal to key size." : String)
      ≠ "Decryption failed: index out of range" := by
  refine ⟨by rfl, by rfl, by decide⟩

/-- C9 amended: the user-facing decrypt_entry error text always carries the
constant prefix "Decryption failed: ", but the remainder is str(e) of the
failing sub-step's exception, so messages of different sub-steps are not
required to coincide (and in fact differ, see the counterexample). -/
theorem claim9_constant_prefix_only {PrivK PubK Cert : Type}
    (L : ExtLib PrivK PubK Cert) (km : KMState PrivK PubK Cert)
    (enc : Envelope) (e : PyError)
    (h : decrypt_entry L km enc = .error e) :
    ∃ inner, e.msg = "Decryption failed: " ++ inner ∧
      e.isInvalidSig = false := by
  unfold decrypt_entry at h
  cases hb : decrypt_entry_body L km enc with
  | ok v =>
    rw [hb] at h
    cases h
  | error e0 =>
    rw [hb] at h
    cases h
    exact ⟨e0.msg, rfl, rfl⟩

/-- C9 witness: the amended theorem applied to the padding-removal failure. -/
theorem claim9_witness :
    ∃ inner, (PyError.mk "Decryption failed: index out of range" false).msg =
      "Decryption failed: " ++ inner ∧
      (PyError.mk "Decryption failed: index out of range" false).isInvalidSig
        = false :=
  claim9_constant_prefix_only libC9 testKM ⟨"10", "0", "", "T", none, none, none⟩
    ⟨"Decryption failed: index out of range", false⟩ (by rfl)

/-- C1: decrypt_entry inverts encrypt_entry for every plaintext string —
including the empty string and strings whose encoded length is a multiple of
or straddles the 16-byte block size, which the unconditional padding
round-trip (stripPadding_padPlaintext) covers — under the inverse properties
of the external primitive pairs (UTF-8, base64, AES-CBC, RSA-OAEP) at the
granularity the code calls them. -/
theorem claim1_encrypt_decrypt_roundtrip {PrivK PubK Cert : Type}
    (L : ExtLib PrivK PubK Cert) (km : KMState PrivK PubK Cert)
    (priv : PrivK) (pub : PubK) (aesKey iv : Bytes) (now plaintext : String)
    (hpriv : km.private_key = some priv)
    (hpub : km.public_key = some pub)
    (hutf8 : ∀ s, L.utf8Decode (L.utf8Encode s) = .ok s)
    (hb64 : ∀ x, L.b64decode (L.b64encode x) = .ok x)
    (haesT : ∀ k i d, ∃ c, L.aesCbcEncrypt k i d = .ok c)
    (haesInv : ∀ k i d c, L.aesCbcEncrypt k i d = .ok c →
      L.aesCbcDecrypt k i c = .ok d)
    (hoaepT : ∃ c, L.rsaOaepEncrypt pub aesKey = .ok c)
    (hoaepInv : ∀ d c, L.rsaOaepEncrypt pub d = .ok c →
      L.rsaOaepDecrypt priv c = .ok d) :
    ∃ env, encrypt_entry L km aesKey iv now plaintext = .ok env ∧
      decrypt_entry L km env = .ok plaintext := by
  obtain ⟨ct, hct⟩ := haesT aesKey iv (padPlaintext (L.utf8Encode plaintext))
  obtain ⟨ek, hek⟩ := hoaepT
  refine ⟨⟨L.b64encode ek, L.b64encode iv, L.b64encode ct, now,
    none, none, none⟩, ?_, ?_⟩
  · simp only [encrypt_entry, hpub, hct, hek, bind, Except.bind, pure,
      Except.pure]
  · simp only [decrypt_entry, decrypt_entry_body, hpriv, hb64,
      hoaepInv aesKey ek hek,
      haesInv aesKey iv (padPlaintext (L.utf8Encode plaintext)) ct hct,
      stripPadding_padPlaintext, hutf8, bind, Except.bind, pure, Except.pure]

/-- C1 witness: the round trip at the empty string and at a sixteen-character
plaintext (whose encoding is exactly one cipher block, exercising the
full-block padding case), under the concrete library. -/
theorem claim1_witness :
    (∃ env, encrypt_entry testLib testKM [7, 8] [9] "T" "" = .ok env ∧
      decrypt_entry testLib testKM env = .ok "") ∧
    (∃ env, encrypt_entry testLib testKM [7, 8] [9] "T" "abcdefghijklmnop" =
        .ok env ∧
      decrypt_entry testLib testKM env = .ok "abcdefghijklmnop") := by
  constructor
  · exact claim1_encrypt_decrypt_roundtrip testLib testKM 1 1 [7, 8] [9] "T" ""
      rfl rfl testLib_utf8_inv testLib_b64_inv
      (fun k i d => ⟨d, rfl⟩)
      (fun k i d c hc => by
        simp only [testLib] at hc ⊢
        cases hc
        rfl)
      ⟨[7, 8], rfl⟩
      (fun d c hc => by
        simp only [testLib] at hc ⊢
        cases hc
        rfl)
  · exact claim1_encrypt_decrypt_roundtrip testLib testKM 1 1 [7, 8] [9] "T"
      "abcdefghijklmnop"
      rfl rfl testLib_utf8_inv testLib_b64_inv
      (fun k i d => ⟨d, rfl⟩)
      (fun k i d c hc => by
        simp only [testLib] at hc ⊢
        cases hc
        rfl)
      ⟨[7, 8], rfl⟩
      (fun d c hc => by
        simp only [testLib] at hc ⊢
        cases hc
        rfl)

/-- C2: for data signed with sign_entry, verify_signature on that data,
signature and signed timestamp returns valid := true with revoked equal to
the ledger's verdict on the signer's certificate serial, for every state of
the revocation ledger.  In particular revoked := false while the serial is
absent, and valid := true, revoked := true once the serial has been
revoked — revocation never changes the validity component. -/
theorem claim2_sign_verify_revocation_independent {PrivK PubK Cert : Type}
    (L : ExtLib PrivK PubK Cert) (km : KMState PrivK PubK Cert)
    (priv : PrivK) (pub : PubK) (cert : Cert) (data now : String)
    (hpriv : km.private_key = some priv)
    (hpub : km.public_key = some pub)
    (hcert : km.certificate = some cert)
    (hb64 : ∀ x, L.b64decode (L.b64encode x) = .ok x)
    (hver : ∀ m, L.pssVerify pub (L.pssSign priv m) m = .ok ()) :
    ∃ si, sign_entry L km now data = .ok si ∧
      si.cert_serial = some (toString (L.certSerial cert)) ∧
      (∀ ledger, verify_signature L ledger km data si.signature
          si.signed_timestamp si.cert_serial none none =
        (true, is_revoked ledger (toString (L.certSerial cert)))) ∧
      (∀ ledger, is_revoked ledger (toString (L.certSerial cert)) = false →
        verify_signature L ledger km data si.signature si.signed_timestamp
          si.cert_serial none none = (true, false)) ∧
      (∀ ledger u t, verify_signature L
          (revoke_certificate ledger (toString (L.certSerial cert)) u t).1
          km data si.signature si.signed_timestamp si.cert_serial none none =
        (true, true)) := by
  have hmain : ∀ ledger, verify_signature L ledger km data
      (L.b64encode (L.pssSign priv
        (L.utf8Encode (dumpsSigned (L.b64encode (L.utf8Encode data)) now))))
      now (some (toString (L.certSerial cert))) none none =
      (true, is_revoked ledger (toString (L.certSerial cert))) := by
    intro ledger
    simp only [verify_signature, verify_signature_body, hb64, hpub, hver,
      bind, Except.bind, pure, Except.pure,
      if_neg (toString_nat_ne_empty (L.certSerial cert))]
  refine ⟨⟨L.b64encode (L.pssSign priv
      (L.utf8Encode (dumpsSigned (L.b64encode (L.utf8Encode data)) now))),
    now, some (toString (L.certSerial cert))⟩, ?_, rfl, hmain, ?_, ?_⟩
  · simp only [sign_entry, hpriv, bind, Except.bind, pure, Except.pure,
      get_certificate_serial, hcert, Option.map_some']
  · intro ledger h
    rw [hmain ledger, h]
  · intro ledger u t
    rw [hmain _, is_revoked_revoke_self]

/-- C2 witness: the theorem at the concrete library, on data "hello" with the
signer's serial 42 — the empty ledger yields (true, false), and after
revoking serial "42" the same signature yields (true, true). -/
theorem claim2_witness :
    ∃ si, sign_entry testLib testKM "T" "hello" = .ok si ∧
      si.cert_serial = some (toString (testLib.certSerial testCert)) ∧
      (∀ ledger, verify_signature testLib ledger testKM "hello" si.signature
          si.signed_timestamp si.cert_serial none none =
        (true, is_revoked ledger (toString (testLib.certSerial testCert)))) ∧
      (∀ ledger, is_revoked ledger (toString (testLib.certSerial testCert))
          = false →
        verify_signature testLib ledger testKM "hello" si.signature
          si.signed_timestamp si.cert_serial none none = (true, false)) ∧
      (∀ ledger u t, verify_signature testLib
          (revoke_certificate ledger
            (toString (testLib.certSerial testCert)) u t).1
          testKM "hello" si.signature si.signed_timestamp si.cert_serial
          none none = (true, true)) :=
  claim2_sign_verify_revocation_independent testLib testKM 1 1 testCert
    "hello" "T" rfl rfl rfl testLib_b64_inv (fun m => testLib_pss 1 1 m)

/-- C6: for every signed envelope produced by encrypt_and_sign of the
exporting key manager km1, importing the exported package with an arbitrary
importing key manager km2 — whose key state is never consulted, since
verification runs against the certificate embedded in the package — yields
signatureValid = true and returns the embedded certificate itself, whose
serial is therefore the exporting signer's certificate serial. -/
theorem claim6_export_import_fidelity {PrivK PubK Cert : Type}
    (L : ExtLib PrivK PubK Cert) (km1 km2 : KMState PrivK PubK Cert)
    (ledger : Ledger) (priv1 : PrivK) (pub1 : PubK) (cert : Cert)
    (aesKey iv : Bytes) (encNow signNow entry_id : String) (md : Metadata)
    (plaintext : String)
    (hpriv : km1.private_key = some priv1)
    (hpub : km1.public_key = some pub1)
    (hcert : km1.certificate = some cert)
    (hb64 : ∀ x, L.b64decode (L.b64encode x) = .ok x)
    (hverC : ∀ m, L.pssVerify (L.certPublicKey cert) (L.pssSign priv1 m) m
      = .ok ())
    (hpem : L.pemToCert (L.utf8Encode (L.certToPem cert)) = .ok cert)
    (hpemne : L.certToPem cert ≠ "")
    (hcn : ∃ cn, L.certSubjectCN cert = .ok cn)
    (haesT : ∃ c, L.aesCbcEncrypt aesKey iv
      (padPlaintext (L.utf8Encode plaintext)) = .ok c)
    (hoaepT : ∃ c, L.rsaOaepEncrypt pub1 aesKey = .ok c) :
    ∃ env pkg cn,
      encrypt_and_sign L km1 aesKey iv encNow signNow plaintext = .ok env ∧
      export_entry L km1 entry_id md env = .ok pkg ∧
      import_entry L ledger km2 pkg =
        .ok (⟨md.title, md.created, cn⟩, env, true,
          is_revoked ledger (toString (L.certSerial cert)), cert) := by
  obtain ⟨ct, hct⟩ := haesT
  obtain ⟨ek, hek⟩ := hoaepT
  obtain ⟨cn, hcn⟩ := hcn
  refine ⟨⟨L.b64encode ek, L.b64encode iv, L.b64encode ct, encNow,
      some (L.b64encode (L.pssSign priv1 (L.utf8Encode (dumpsSigned
        (L.b64encode (L.utf8Encode (L.b64encode ct))) signNow)))),
      some signNow, some (toString (L.certSerial cert))⟩,
    ⟨entry_id, md.title, md.created,
      ⟨L.b64encode ek, L.b64encode iv, L.b64encode ct, encNow,
        some (L.b64encode (L.pssSign priv1 (L.utf8Encode (dumpsSigned
          (L.b64encode (L.utf8Encode (L.b64encode ct))) signNow)))),
        some signNow, some (toString (L.certSerial cert))⟩,
      L.certToPem cert⟩, cn, ?_, ?_, ?_⟩
  · simp only [encrypt_and_sign, encrypt_entry, sign_entry, hpub, hpriv,
      hct, hek, get_certificate_serial, hcert, Option.map_some',
      bind, Except.bind, pure, Except.pure]
  · unfold export_entry
    rw [hcert]
    simp only [if_neg hpemne]
  · simp only [import_entry, hpem, hcn, bind, Except.bind, pure, Except.pure,
      verify_signature, verify_signature_body, hb64, hverC,
      if_neg (toString_nat_ne_empty (L.certSerial cert))]

/-- C6 witness: the theorem at the concrete library — Alice (key 1,
certificate serial 42) encrypts and signs "hi", exports, and Bob, holding a
different key pair and no certificate, imports with a valid signature verdict
and Alice's certificate. -/
theorem claim6_witness :
    ∃ env pkg cn,
      encrypt_and_sign testLib testKM [7] [9] "E" "S" "hi" = .ok env ∧
      export_entry testLib testKM "id1" ⟨"t", "c"⟩ env = .ok pkg ∧
      import_entry testLib [] ⟨some 3, some 3, none⟩ pkg =
        .ok (⟨"t", "c", cn⟩, env, true,
          is_revoked [] (toString (testLib.certSerial testCert)), testCert) :=
  claim6_export_import_fidelity testLib testKM ⟨some 3, some 3, none⟩ []
    1 1 testCert [7] [9] "E" "S" "id1" ⟨"t", "c"⟩ "hi"
    rfl rfl rfl testLib_b64_inv (fun m => testLib_pss testCert.pub 1 m)
    (by rfl) (by decide) ⟨"alice", rfl⟩ ⟨_, rfl⟩ ⟨[7], rfl⟩

/-- Variant of the concrete library under which a keystore decrypts and
parses structurally, its private-key field parses as a key, but its
public-key field is corrupt (the PEM loader rejects it). -/
def libC4 : ExtLib Nat Nat TestCert :=
  { testLib with
      aesCbcDecrypt := fun _ _ _ => .ok [1]
      loadPemPublicKey := fun _ =>
        .error ⟨"Could not deserialize key data.", false⟩ }

/-- C4 counterexample: on a keystore whose public-key entry is corrupt,
load_keystore fails (returns false) yet has already overwritten
private_key — the key state after the call differs from the state before it,
a partially-populated key state. -/
theorem claim4_counterexample :
    load_keystore libC4 "pw" (some "file") ⟨none, none, none⟩ =
      (false, ⟨some 1, none, none⟩) ∧
    (⟨some 1, none, none⟩ : KMState Nat Nat TestCert) ≠
      ⟨none, none, none⟩ := by
  exact ⟨rfl, by decide⟩

/-- C4 amended: load_keystore leaves the key state exactly unchanged when the
failure occurs before any key material is stored: a missing file, any failure
of the structural phase (JSON parse, base64, decryption, padding, payload
parse — the wrong-password case surfaces here as a payload parse failure), or
a failure while parsing the private-key field.  (A corruption first detected
at the public-key or certificate field, however, leaves the earlier
assignments in place — see the counterexample.) -/
theorem claim4_fail_closed_before_private_key {PrivK PubK Cert : Type}
    (L : ExtLib PrivK PubK Cert) (password : String) (file : Option String)
    (st : KMState PrivK PubK Cert)
    (h : file = none ∨
      (∃ raw e, file = some raw ∧
        load_keystore_parse L password raw = .error e) ∨
      (∃ raw kd e, file = some raw ∧
        load_keystore_parse L password raw = .ok kd ∧
        (do
          let pem ← L.b64decode kd.private_key
          L.loadPemPrivateKey pem : Except PyError PrivK) = .error e)) :
    load_keystore L password file st = (false, st) := by
  rcases h with h | ⟨raw, e, hraw, herr⟩ | ⟨raw, kd, e, hraw, hok, herr⟩
  · rw [h]
    rfl
  · subst hraw
    unfold load_keystore
    simp only [herr]
  · subst hraw
    unfold load_keystore
    simp only [hok, herr]

/-- C4 witness: under the concrete library the structural phase fails (the
decrypted block is empty, so padding removal raises IndexError), and a
key manager already holding keys is left exactly as it was. -/
theorem claim4_witness :
    load_keystore testLib "pw" (some "x") ⟨some 5, some 6, none⟩ =
      (false, ⟨some 5, some 6, none⟩) :=
  claim4_fail_closed_before_private_key testLib "pw" (some "x")
    ⟨some 5, some 6, none⟩
    (Or.inr (Or.inl ⟨"x", ⟨"index out of range", false⟩, rfl, rfl⟩))

end CryptDiary
